import Mathlib

/-!
Shallow embedding of `src/app/utils/Annotations.py` (class `Annotations`).

Frames are modelled as buffers holding their dimensions together with the
trace of primitive drawing calls (cv2 ellipse/line/circle/rectangle/putText,
numpy slice fills, and the overlay paste) issued against them.  The mutable
numpy buffers of the Python code become an explicit heap: a list of frames,
where every cv2 call appends one operation to the ops trace of the buffer it
mutates.  Python `int()` is truncation toward zero (`pyInt`), Python `//` is
`Int.fdiv`, and Python float arithmetic is modelled by exact rationals.
The cv2 text-measurement backend (`cv2.getTextSize`) is an external
collaborator and is therefore a parameter (`Measure`).  A Python `TypeError`
raised while formatting a missing value is modelled with `Except`.
-/

/-- Python `int()` conversion: truncation toward zero. -/
def pyInt (q : ℚ) : ℤ := if q < 0 then Int.ceil q else Int.floor q

/-- Rendering of a possibly missing integer the way a Python f-string does:
`None` prints as the literal text "None". -/
def pyShowOptInt : Option ℤ → String
  | none => "None"
  | some n => toString n

/-- Rendering of a possibly missing string the way a Python f-string does. -/
def pyShowOptStr : Option String → String
  | none => "None"
  | some s => s

/-- Digits-of-hundredths part of `format2f`: renders `n` hundredths as a
fixed two-decimals string. -/
def format2fAux (n : ℤ) : String :=
  toString (n.fdiv 100).toNat ++ "." ++
    (if (n.emod 100).toNat < 10 then "0" ++ toString (n.emod 100).toNat
     else toString (n.emod 100).toNat)

/-- Python `format(q, '.2f')`: fixed two decimal places (exact rationals,
rounding half away from zero on the magnitude). -/
def format2f (q : ℚ) : String :=
  (if q < 0 then "-" else "") ++ format2fAux (Int.floor (|q| * 100 + 1/2))

/-- A BGR colour triple. -/
abbrev Colour := ℤ × ℤ × ℤ

/-- License-plate sub-record of a detection (`detection['license_plate']`). -/
structure LicensePlate where
  plate_text : Option String
deriving DecidableEq

/-- A detection record as consumed by `Annotations`: required bbox geometry
plus the optional metadata fields accessed through `dict.get`. -/
structure Detection where
  ID : Option ℤ
  classname : Option String
  confidence_score : Option ℚ
  x1 : ℚ
  y1 : ℚ
  x2 : ℚ
  y2 : ℚ
  offender : Option Bool
  speed : Option ℤ
  license_plate : Option LicensePlate
  center_points : Option (List (ℤ × ℤ))
deriving DecidableEq

/-- One primitive drawing call recorded against a frame buffer. -/
inductive DrawOp where
  | ellipse (center : ℤ × ℤ) (axes : ℤ × ℤ) (angle startAngle endAngle : ℤ)
      (colour : Colour) (thickness : ℤ)
  | lineSeg (p1 p2 : ℤ × ℤ) (colour : Colour) (thickness : ℤ)
  | circle (center : ℤ × ℤ) (radius : ℤ) (colour : Colour) (thickness : ℤ)
  | rect (p1 p2 : ℤ × ℤ) (colour : Colour) (thickness : ℤ)
  | putText (text : String) (org : ℤ × ℤ) (scale : ℚ) (colour : Colour) (thickness : ℤ)
  | fillRegion (rowStart rowStop colStart colStop : ℤ) (colour : Colour)
  | overlay (x y width height : ℤ)
deriving DecidableEq

/-- A frame buffer: its pixel-grid dimensions and the trace of drawing
operations applied to it (two frames are bit-identical iff they are equal). -/
structure Frame where
  height : ℤ
  width : ℤ
  ops : List DrawOp
deriving DecidableEq

/-- The default frame used when a heap lookup misses (never happens on the
inputs the Python code runs on). -/
def emptyFrame : Frame := Frame.mk 0 0 []

/-- The heap of live numpy buffers; a buffer is named by its list index. -/
abbrev Heap := List Frame

/-- Mutate the buffer named `i` in place, leaving every other buffer alone. -/
def updateBuf : Heap → ℕ → (Frame → Frame) → Heap
  | [], _, _ => []
  | f :: rest, 0, g => g f :: rest
  | f :: rest, n + 1, g => f :: updateBuf rest n g

/-- Append drawing operations to the trace of buffer `i` (a sequence of cv2
calls mutating that buffer). -/
def appendOps (heap : Heap) (i : ℕ) (ops : List DrawOp) : Heap :=
  updateBuf heap i (fun f => Frame.mk f.height f.width (f.ops ++ ops))

/-- `Annotations.fetch_bbox_colour`: offender detections get the offender
colour, everything else the standard colour. -/
def fetch_bbox_colour (d : Detection) : Colour :=
  if d.offender.getD false then (10, 10, 255) else (10, 255, 10)

/-- `detection_size` of `annotate_bbox_corners`:
`min(x2 - x1, y2 - y1)` after the `int()` casts of the bbox coordinates. -/
def bboxSize (d : Detection) : ℤ :=
  min (pyInt d.x2 - pyInt d.x1) (pyInt d.y2 - pyInt d.y1)

/-- `corner_radius` of `annotate_bbox_corners`:
`max(min(int(detection_size * 0.5), 30), 5)`. -/
def cornerRadius (d : Detection) : ℤ :=
  max (min (pyInt ((bboxSize d : ℚ) * (1/2))) 30) 5

/-- `thickness` of `annotate_bbox_corners`:
`max(min(int(detection_size * 0.01) * 2, 5), 1)`. -/
def cornerThickness (d : Detection) : ℤ :=
  max (min (pyInt ((bboxSize d : ℚ) * (1/100)) * 2) 5) 1

/-- The four corner-arc ellipse calls issued by `annotate_bbox_corners`. -/
def bboxCornerOps (d : Detection) : List DrawOp :=
  let x1 := pyInt d.x1
  let y1 := pyInt d.y1
  let x2 := pyInt d.x2
  let y2 := pyInt d.y2
  let r := cornerRadius d
  let t := cornerThickness d
  let c := fetch_bbox_colour d
  [ DrawOp.ellipse (x1 + r, y1 + r) (r, r) 0 180 270 c t,
    DrawOp.ellipse (x1 + r, y2 - r) (r, r) 0 90 180 c t,
    DrawOp.ellipse (x2 - r, y1 + r) (r, r) 0 270 360 c t,
    DrawOp.ellipse (x2 - r, y2 - r) (r, r) 0 0 90 c t ]

/-- `Annotations.annotate_bbox_corners`, acting on buffer `i` of the heap. -/
def annotate_bbox_corners (heap : Heap) (i : ℕ) (d : Detection) : Heap :=
  appendOps heap i (bboxCornerOps d)

/-- The text-measurement collaborator `cv2.getTextSize(label, font, scale,
font_thickness)[0]`, returning `(text_width, text_height)`; font and
thickness are the fixed `StyleConfig` values, so only label and scale vary. -/
abbrev Measure := String → ℚ → ℤ × ℤ

/-- The shrink-to-fit loop of `fetch_text_properties`.  `k` counts the
decrements performed so far, so the current font scale is `2 - k/10`; the
loop re-measures and decrements while the text is too wide and the scale is
above the 0.8 minimum.  Returns measured size, final scale, iteration count. -/
def fetchLoop (measure : Measure) (label : String) (maxW : ℤ) (k : ℕ) :
    (ℤ × ℤ) × ℚ × ℕ :=
  if h : (measure label (2 - (k : ℚ) / 10)).1 > maxW ∧ 4/5 < 2 - (k : ℚ) / 10 then
    fetchLoop measure label maxW (k + 1)
  else (measure label (2 - (k : ℚ) / 10), 2 - (k : ℚ) / 10, k)
termination_by 12 - k
decreasing_by
  have hk : k < 12 := by
    by_contra hge
    push_neg at hge
    have h12 : (12 : ℚ) ≤ (k : ℚ) := by exact_mod_cast hge
    have := h.2
    linarith
  omega

/-- `Annotations.fetch_text_properties`: `frameW` is `frame.shape[1]`; the
maximum width is the frame width minus twice the label padding (25). -/
def fetch_text_properties (measure : Measure) (label : String) (frameW : ℤ) :
    (ℤ × ℤ) × ℚ :=
  let r := fetchLoop measure label (frameW - 25 * 2) 0
  (r.1, r.2.1)

/-- Number of decrement iterations the shrink-to-fit loop of
`fetch_text_properties` performs. -/
def fetchIterationCount (measure : Measure) (label : String) (frameW : ℤ) : ℕ :=
  (fetchLoop measure label (frameW - 25 * 2) 0).2.2

/-- Geometry of a label background box as returned by
`calculate_label_position`. -/
structure LabelPosition where
  x : ℤ
  y : ℤ
  width : ℤ
  height : ℤ
deriving DecidableEq

/-- `Annotations.calculate_label_position`: label placement derived from the
bbox bottom, the detection center point and the measured text size. -/
def calculate_label_position (bbox_bottom : ℤ) (center : ℚ × ℚ)
    (text : ℤ × ℤ) : LabelPosition :=
  LabelPosition.mk
    (pyInt (center.1 - ((text.1.fdiv 2 : ℤ) : ℚ)))
    (pyInt ((bbox_bottom : ℚ) + (text.2 : ℚ) + 25))
    (text.1 + 2 * 25)
    (text.2 + 2 * 25)

/-- `plate_text` lookup `detection.get('license_plate', {}).get('plate_text', '')`. -/
def plateText (d : Detection) : String :=
  match d.license_plate with
  | none => ""
  | some lp => lp.plate_text.getD ""

/-- `Annotations.create_label`.  The Python code builds the whole
`detection_labels` dict eagerly, so the `object_detection` template formats
`detection.get('confidence_score')` with `:.2f` for every vision type; when
that field is missing this raises `TypeError`, modelled as `Except.error`.
For an unrecognized vision type, `dict.get(vision_type, 'object_detection')`
returns the literal string `'object_detection'`. -/
def create_label (d : Detection) (vision_type : String)
    (captured_at : Option String) : Except String String :=
  match d.confidence_score with
  | none => Except.error "TypeError: unsupported format string passed to NoneType.__format__"
  | some conf =>
    let idStr := pyShowOptInt d.ID
    let objectDetectionLabel :=
      "ID: " ++ idStr ++ " | Class: " ++ pyShowOptStr d.classname ++
        " | Confidence Score: " ++ format2f conf
    let objectTrackingLabel := "ID: " ++ idStr
    let speedEstimationLabel :=
      "ID: " ++ idStr ++ " | Speed: " ++ pyShowOptInt d.speed ++ "mph"
    let plateReadingLabel := "ID: " ++ idStr ++ " | Plate: " ++ plateText d
    let trafficViolationLabel :=
      "ID: " ++ idStr ++ " | Captured: " ++ pyShowOptStr captured_at ++
        " | Speed: " ++ pyShowOptInt d.speed ++ "mph"
    Except.ok
      (if vision_type = "object_detection" then objectDetectionLabel
       else if vision_type = "object_tracking" then objectTrackingLabel
       else if vision_type = "speed_estimation" then speedEstimationLabel
       else if vision_type = "plate_reading" then plateReadingLabel
       else if vision_type = "traffic_violation" then trafficViolationLabel
       else "object_detection")

/-- The `cv2.circle` call of `annotate_center_point`: radius 5, offender
colour, thickness `self.thickness = 8`. -/
def centerPointOp (p : ℤ × ℤ) : DrawOp :=
  DrawOp.circle p 5 (10, 10, 255) 8

/-- The `cv2.line` calls of the trail loop: one segment per consecutive pair
of center points, trail colour, trail thickness 12. -/
def segmentOps (pts : List (ℤ × ℤ)) : List DrawOp :=
  (pts.zip pts.tail).map (fun pq => DrawOp.lineSeg pq.1 pq.2 (255, 10, 10) 12)

/-- All operations drawn by `annotate_center_point_trail` when it draws:
the polyline segments, then markers at the first and the last point. -/
def trailOps (pts : List (ℤ × ℤ)) : List DrawOp :=
  segmentOps pts ++ [centerPointOp (pts.headD (0, 0)), centerPointOp (pts.getLastD (0, 0))]

/-- `Annotations.annotate_center_point_trail`, acting on buffer `i`:
returns the heap untouched when fewer than two points exist. -/
def annotate_center_point_trail (heap : Heap) (i : ℕ) (pts : List (ℤ × ℤ)) : Heap :=
  if pts.length < 2 then heap else appendOps heap i (trailOps pts)

/-- Modelled from the spec: `calculate_center_point` lives in
`app/utils/BboxUtils.py`, which is not part of the sources; per the spec the
detection center point is the center of its bounding box. -/
def calculate_center_point (d : Detection) : ℚ × ℚ :=
  ((d.x1 + d.x2) / 2, (d.y1 + d.y2) / 2)

/-- The two filled rectangles and four filled corner arcs of
`draw_label_background` (border radius 6, background colour black). -/
def labelBackgroundOps (p : LabelPosition) : List DrawOp :=
  [ DrawOp.rect (p.x + 6, p.y) (p.x + p.width - 6, p.y + p.height) (0, 0, 0) (-1),
    DrawOp.rect (p.x, p.y + 6) (p.x + p.width, p.y + p.height - 6) (0, 0, 0) (-1),
    DrawOp.ellipse (p.x + 6, p.y + 6) (6, 6) 0 180 270 (0, 0, 0) (-1),
    DrawOp.ellipse (p.x + p.width - 6, p.y + 6) (6, 6) 0 270 360 (0, 0, 0) (-1),
    DrawOp.ellipse (p.x + 6, p.y + p.height - 6) (6, 6) 0 90 180 (0, 0, 0) (-1),
    DrawOp.ellipse (p.x + p.width - 6, p.y + p.height - 6) (6, 6) 0 0 90 (0, 0, 0) (-1) ]

/-- The `cv2.putText` call of `draw_label_text`. -/
def labelTextOp (label : String) (p : LabelPosition) (text : ℤ × ℤ)
    (scale : ℚ) : DrawOp :=
  DrawOp.putText label (p.x + 25, p.y + text.2 + 25) scale (255, 255, 255) 2

/-- `Annotations.annotate_label`, acting on buffer `i`: builds the label
(which can raise), optionally draws the tracking trail, then draws the label
background and text. -/
def annotate_label (measure : Measure) (heap : Heap) (i : ℕ) (d : Detection)
    (vision_type : String) : Except String Heap :=
  match create_label d vision_type none with
  | Except.error e => Except.error e
  | Except.ok detection_label =>
    let y2 := pyInt d.y2
    let c := calculate_center_point d
    let heap1 :=
      if vision_type = "object_tracking" then
        annotate_center_point_trail heap i (d.center_points.getD [])
      else heap
    let w := ((heap1.get? i).getD emptyFrame).width
    let r := fetch_text_properties measure detection_label w
    let pos := calculate_label_position y2 c r.1
    Except.ok
      (appendOps (appendOps heap1 i (labelBackgroundOps pos)) i
        [labelTextOp detection_label pos r.1 r.2])

/-- `Annotations.annotate_frame`, acting on buffer `i`: corners then label,
for each detection in input order. -/
def annotate_frame (measure : Measure) (heap : Heap) (i : ℕ) :
    List Detection → String → Except String Heap
  | [], _ => Except.ok heap
  | d :: rest, vision_type =>
    match annotate_label measure (annotate_bbox_corners heap i d) i d vision_type with
    | Except.error e => Except.error e
    | Except.ok heap2 => annotate_frame measure heap2 i rest vision_type

/-- `overlay_width` of `capture_traffic_violation`: `w // 4`. -/
def overlayWidth (w : ℤ) : ℤ := w.fdiv 4

/-- `padded_x1 = int(max(0, x1 - padding))` with padding 64. -/
def paddedX1 (d : Detection) : ℤ := pyInt (max 0 (d.x1 - 64))

/-- `padded_y1 = int(max(0, y1 - padding))`. -/
def paddedY1 (d : Detection) : ℤ := pyInt (max 0 (d.y1 - 64))

/-- `padded_x2 = int(min(w, x2 + padding))`. -/
def paddedX2 (w : ℤ) (d : Detection) : ℤ := pyInt (min (w : ℚ) (d.x2 + 64))

/-- `padded_y2 = int(min(h, y2 + padding))`. -/
def paddedY2 (h : ℤ) (d : Detection) : ℤ := pyInt (min (h : ℚ) (d.y2 + 64))

/-- `overlay_height = int((padded_y2 - padded_y1) * (overlay_width /
(padded_x2 - padded_x1)))`. -/
def overlayHeight (h w : ℤ) (d : Detection) : ℤ :=
  pyInt (((paddedY2 h d - paddedY1 d : ℤ) : ℚ) *
    ((overlayWidth w : ℚ) / ((paddedX2 w d - paddedX1 d : ℤ) : ℚ)))

/-- `overlay_x = w - overlay_width - padding`. -/
def overlayX (w : ℤ) : ℤ := w - overlayWidth w - 64

/-- Length of the index range selected by a Python step-1 slice `a:b` on an
axis of length `len`: a negative endpoint is wrapped once by `len`, then
both endpoints are clamped into `[0, len]`. -/
def sliceLen (len a b : ℤ) : ℤ :=
  max 0 (min (max (if b < 0 then b + len else b) 0) len
    - min (max (if a < 0 then a + len else a) 0) len)

/-- Row count of `cropped_frame = annotated_frame[padded_y1 : padded_y2 +
padding, ...]` (the asymmetric `+ 64` on the far edge is in the source). -/
def croppedRows (h : ℤ) (d : Detection) : ℤ :=
  sliceLen h (paddedY1 d) (paddedY2 h d + 64)

/-- Column count of the crop `annotated_frame[..., padded_x1 : padded_x2 +
padding]`. -/
def croppedCols (w : ℤ) (d : Detection) : ℤ :=
  sliceLen w (paddedX1 d) (paddedX2 w d + 64)

/-- Success condition of `cv2.resize(cropped_frame, (overlay_width,
overlay_height))`: OpenCV raises unless the source crop is non-empty and
both target dimensions are positive. -/
def resizeOK (h w : ℤ) (d : Detection) : Prop :=
  0 < croppedRows h d ∧ 0 < croppedCols w d ∧
    0 < overlayWidth w ∧ 0 < overlayHeight h w d

instance decResizeOK (h w : ℤ) (d : Detection) : Decidable (resizeOK h w d) := by
  unfold resizeOK
  infer_instance

/-- The source bounds check guarding the overlay paste:
`overlay_y + overlay_height <= h and overlay_x + overlay_width <= w`. -/
def overlayGuard (h w : ℤ) (d : Detection) : Prop :=
  64 + overlayHeight h w d ≤ h ∧ overlayX w + overlayWidth w ≤ w

instance decOverlayGuard (h w : ℤ) (d : Detection) : Decidable (overlayGuard h w d) := by
  unfold overlayGuard
  infer_instance

/-- Row count of the numpy target slice of the overlay paste,
`annotated_frame[overlay_y : overlay_y + overlay_height, ...]`. -/
def pasteTargetRows (h w : ℤ) (d : Detection) : ℤ :=
  sliceLen h 64 (64 + overlayHeight h w d)

/-- Column count of the numpy target slice of the overlay paste,
`annotated_frame[..., overlay_x : overlay_x + overlay_width]`; with a
negative `overlay_x` the start index wraps around and the slice collapses. -/
def pasteTargetCols (w : ℤ) : ℤ :=
  sliceLen w (overlayX w) (overlayX w + overlayWidth w)

/-- Success condition of the overlay slice assignment: numpy broadcasts the
upscaled crop of shape `(overlay_height, overlay_width, 3)` into the target
slice, which requires each source dimension to equal the target dimension
or to be 1; otherwise the assignment raises ValueError. -/
def pasteOK (h w : ℤ) (d : Detection) : Prop :=
  (overlayHeight h w d = pasteTargetRows h w d ∨ overlayHeight h w d = 1) ∧
  (overlayWidth w = pasteTargetCols w ∨ overlayWidth w = 1)

instance decPasteOK (h w : ℤ) (d : Detection) : Decidable (pasteOK h w d) := by
  unfold pasteOK
  infer_instance

/-- The trace the guarded overlay paste records when the assignment does
not raise: the overlay when the source bounds check passes, nothing
otherwise. -/
def pasteOpsIf (h w : ℤ) (d : Detection) : List DrawOp :=
  if overlayGuard h w d then
    [DrawOp.overlay (overlayX w) 64 (overlayWidth w) (overlayHeight h w d)]
  else []

/-- The numpy slice fill producing the black plate bar under the overlay
region (height `h // 14`). -/
def plateBarFill (h w : ℤ) (d : Detection) : DrawOp :=
  DrawOp.fillRegion (64 + overlayHeight h w d - h.fdiv 14) (64 + overlayHeight h w d)
    (overlayX w) (overlayX w + overlayWidth w) (0, 0, 0)

/-- The `cv2.putText` call centering the license-plate text in the plate bar. -/
def plateBarText (measure : Measure) (h w : ℤ) (d : Detection) : DrawOp :=
  DrawOp.putText (plateText d)
    (overlayX w + (overlayWidth w - (fetch_text_properties measure (plateText d) w).1.1).fdiv 2,
     64 + overlayHeight h w d - h.fdiv 14
       + (h.fdiv 14 + (fetch_text_properties measure (plateText d) w).1.2).fdiv 2)
    (fetch_text_properties measure (plateText d) w).2 (255, 255, 255) 2

/-- The numpy slice fill producing the full-width black metadata bar along
the frame bottom, sized to the label text height plus double padding. -/
def bottomBarFill (measure : Measure) (h w : ℤ) (label : String) : DrawOp :=
  DrawOp.fillRegion (h - ((fetch_text_properties measure label w).1.2 + 64 * 2)) h 0 w (0, 0, 0)

/-- The `cv2.putText` call centering the violation label in the bottom bar. -/
def bottomBarText (measure : Measure) (h w : ℤ) (label : String) : DrawOp :=
  DrawOp.putText label
    (w.fdiv 2 - (fetch_text_properties measure label w).1.1.fdiv 2,
     h - ((fetch_text_properties measure label w).1.2 + 64 * 2)
       + ((fetch_text_properties measure label w).1.2 + 64 * 2).fdiv 2
       + (fetch_text_properties measure label w).1.2.fdiv 2)
    (fetch_text_properties measure label w).2 (255, 255, 255) 2

/-- The drawing operations `capture_traffic_violation` applies to the copied
evidence frame once past the fallible crop/resize/paste steps and before the
bottom metadata bar: the corner arcs, the successfully guarded overlay
paste, the plate bar and the plate text. -/
def capturePreOps (measure : Measure) (h w : ℤ) (d : Detection) : List DrawOp :=
  bboxCornerOps d ++ pasteOpsIf h w d
    ++ [plateBarFill h w d, plateBarText measure h w d]

/-- The drawing operations `capture_traffic_violation` applies to the copied
evidence frame (of height `h`, width `w`), and the outcome of the call.
Each fallible step aborts the run exactly where the source raises, with the
trace drawn so far: the ratio `overlay_width / (padded_x2 - padded_x1)`
raises ZeroDivisionError on a zero denominator, `cv2.resize` raises on an
empty crop or a non-positive target size, the guarded slice assignment
raises ValueError when the upscaled crop does not broadcast into the target
slice, and `create_label` raises on a missing confidence score - in that
source order, each after only the corner arcs (respectively, for the label,
after the corner arcs, any pasted overlay, the plate bar and plate text);
the plate-bar and bottom-bar fills assign the scalar colour `(0,0,0)` and
never raise. -/
def captureOps (measure : Measure) (h w : ℤ) (d : Detection)
    (captured_at : Option String) : List DrawOp × Except String Unit :=
  if paddedX2 w d - paddedX1 d = 0 then
    (bboxCornerOps d, Except.error "ZeroDivisionError: division by zero")
  else if ¬ resizeOK h w d then
    (bboxCornerOps d, Except.error "cv2.error: resize on an empty crop or target size")
  else if overlayGuard h w d ∧ ¬ pasteOK h w d then
    (bboxCornerOps d, Except.error "ValueError: could not broadcast input array")
  else
    match create_label d "traffic_violation" captured_at with
    | Except.error e => (capturePreOps measure h w d, Except.error e)
    | Except.ok label =>
      (capturePreOps measure h w d
         ++ [bottomBarFill measure h w label, bottomBarText measure h w label],
       Except.ok ())

/-- `Annotations.capture_traffic_violation`: copies buffer `i` into a fresh
buffer (`frame.copy()`), applies every drawing step to the copy only, and
returns the updated heap together with the index of the evidence buffer (or
the propagated label-build error). -/
def capture_traffic_violation (measure : Measure) (heap : Heap) (i : ℕ)
    (d : Detection) (captured_at : Option String) : Heap × Except String ℕ :=
  let frame := (heap.get? i).getD emptyFrame
  let r := captureOps measure frame.height frame.width d captured_at
  (heap ++ [Frame.mk frame.height frame.width (frame.ops ++ r.1)],
   match r.2 with
   | Except.ok _ => Except.ok heap.length
   | Except.error e => Except.error e)

/-- Does the ops trace contain an overlay paste? -/
def hasOverlayOp (ops : List DrawOp) : Bool :=
  ops.any fun op =>
    match op with
    | DrawOp.overlay _ _ _ _ => true
    | _ => false

/-- Number of numpy slice-fill bars in the ops trace. -/
def fillCount (ops : List DrawOp) : ℕ :=
  (ops.filter fun op =>
    match op with
    | DrawOp.fillRegion _ _ _ _ _ => true
    | _ => false).length

/-- Number of text draws in the ops trace. -/
def putTextCount (ops : List DrawOp) : ℕ :=
  (ops.filter fun op =>
    match op with
    | DrawOp.putText _ _ _ _ _ => true
    | _ => false).length

/-- Modelled from the spec: `clamp(v, [lo, hi])`. -/
def clamp (v lo hi : ℤ) : ℤ := max lo (min hi v)

/-- Modelled from the spec words of claim C4: thickness derived with
`round` (rounding to the nearest integer) instead of the truncation the
source performs: `clamp(round(size * 0.01) * 2, [1, 5])`. -/
def specRoundThickness (s : ℤ) : ℤ :=
  clamp (round ((s : ℚ) * (1/100)) * 2) 1 5

/-- A deterministic mock text-measurement backend used for concrete runs. -/
def constMeasure : Measure := fun _ _ => (10, 20)

/-- Concrete detection records used in concrete runs below. -/
def detNarrow : Detection := Detection.mk none none (some (1/2)) 30 30 40 40 none none none none

/-- A second detection for a narrow-frame run: bbox (10,10)-(20,20). -/
def detNarrow2 : Detection := Detection.mk none none (some 1) 10 10 20 20 none none none none

/-- A detection with identifier, class and confidence present. -/
def detCar : Detection := Detection.mk (some 7) (some "car") (some (87/100)) 0 0 0 0 none none none none

/-- A detection whose optional metadata fields are all missing. -/
def detBare : Detection := Detection.mk none none none 0 0 0 0 none none none none

/-- A square detection of side 160. -/
def detSquare160 : Detection := Detection.mk none none none 0 0 160 160 none none none none

/-- The Scenario A detection: bbox (100,100)-(200,200). -/
def detScenarioA : Detection := Detection.mk none none none 100 100 200 200 none none none none

/-- Truncation is the identity on integers. -/
theorem pyInt_intCast (n : ℤ) : pyInt ((n : ℤ) : ℚ) = n := by
  unfold pyInt
  by_cases hn : ((n : ℤ) : ℚ) < 0
  · simp [hn, Int.ceil_intCast]
  · simp [hn, Int.floor_intCast]

/-- When the confidence score is present, `create_label` always succeeds. -/
theorem create_label_ok_of_confidence (d : Detection) (vt : String)
    (cat : Option String) (hc : d.confidence_score.isSome = true) :
    ∃ s, create_label d vt cat = Except.ok s := by
  rcases Option.isSome_iff_exists.mp hc with ⟨c, hcv⟩
  unfold create_label
  rw [hcv]
  exact ⟨_, rfl⟩

/-- Invariant of the shrink-to-fit loop: starting at decrement count `k`,
the loop exits after at most `max k 12` total decrements, the final scale is
`2 - count/10`, the returned size is the last measurement, and on exit the
loop guard fails. -/
theorem fetchLoop_spec (measure : Measure) (label : String) (maxW : ℤ) :
    ∀ (n k : ℕ), 12 - k ≤ n →
      k ≤ (fetchLoop measure label maxW k).2.2 ∧
      (fetchLoop measure label maxW k).2.2 ≤ max k 12 ∧
      (fetchLoop measure label maxW k).2.1
        = 2 - ((fetchLoop measure label maxW k).2.2 : ℚ) / 10 ∧
      (fetchLoop measure label maxW k).1
        = measure label (fetchLoop measure label maxW k).2.1 ∧
      ¬((fetchLoop measure label maxW k).1.1 > maxW ∧
          4/5 < (fetchLoop measure label maxW k).2.1) := by
  intro n
  induction n with
  | zero =>
    intro k hk
    have hk12 : 12 ≤ k := by omega
    have hsc : ¬ (4/5 < 2 - (k : ℚ) / 10) := by
      have h12 : (12 : ℚ) ≤ (k : ℚ) := by exact_mod_cast hk12
      intro hlt
      linarith
    have hcond : ¬ ((measure label (2 - (k : ℚ) / 10)).1 > maxW ∧ 4/5 < 2 - (k : ℚ) / 10) := by
      intro hc
      exact hsc hc.2
    rw [fetchLoop]
    simp only [dif_neg hcond]
    exact ⟨le_refl k, le_max_left k 12, by trivial, by trivial, hcond⟩
  | succ n ih =>
    intro k hk
    by_cases hcond : ((measure label (2 - (k : ℚ) / 10)).1 > maxW ∧ 4/5 < 2 - (k : ℚ) / 10)
    · have hk12 : k < 12 := by
        by_contra hge
        push_neg at hge
        have h12 : (12 : ℚ) ≤ (k : ℚ) := by exact_mod_cast hge
        have := hcond.2
        linarith
      have hrec := ih (k + 1) (by omega)
      rw [fetchLoop]
      simp only [dif_pos hcond]
      refine ⟨by omega, ?_, hrec.2.2.1, hrec.2.2.2.1, hrec.2.2.2.2⟩
      have h1 : (fetchLoop measure label maxW (k + 1)).2.2 ≤ max (k + 1) 12 := hrec.2.1
      omega
    · rw [fetchLoop]
      simp only [dif_neg hcond]
      exact ⟨le_refl k, le_max_left k 12, by trivial, by trivial, hcond⟩

/-- Claim C6: for every label string, frame width and measurement backend,
`fetch_text_properties` returns a font scale never below 0.8, and the
returned text width fits within `frame_width - 2 * label_padding` unless the
minimum scale was reached without the text fitting. -/
theorem claim_C6 (measure : Measure) (label : String) (frameW : ℤ) :
    4/5 ≤ (fetch_text_properties measure label frameW).2 ∧
    ((fetch_text_properties measure label frameW).1.1 ≤ frameW - 2 * 25 ∨
      (fetch_text_properties measure label frameW).2 = 4/5) := by
  have hs := fetchLoop_spec measure label (frameW - 25 * 2) 12 0 (by omega)
  set r := fetchLoop measure label (frameW - 25 * 2) 0 with hr
  have hcount : r.2.2 ≤ 12 := by
    have := hs.2.1
    omega
  have hscale : r.2.1 = 2 - (r.2.2 : ℚ) / 10 := hs.2.2.1
  have hlow : 4/5 ≤ r.2.1 := by
    rw [hscale]
    have hc : (r.2.2 : ℚ) ≤ 12 := by exact_mod_cast hcount
    linarith
  have hexit := hs.2.2.2.2
  constructor
  · exact hlow
  · by_cases hw : r.1.1 ≤ frameW - 25 * 2
    · left
      have : (25 : ℤ) * 2 = 2 * 25 := by ring
      calc (fetch_text_properties measure label frameW).1.1 = r.1.1 := rfl
        _ ≤ frameW - 25 * 2 := hw
        _ = frameW - 2 * 25 := by ring
    · right
      push_neg at hw
      have hns : ¬ (4/5 < r.2.1) := by
        intro hlt
        exact hexit ⟨hw, hlt⟩
      have : (fetch_text_properties measure label frameW).2 = r.2.1 := rfl
      rw [this]
      push_neg at hns
      exact le_antisymm hns hlow

/-- Claim C7: for every label, frame width and every possible behaviour of
the text-measurement backend, the shrink-to-fit loop of
`fetch_text_properties` performs at most (2 - 0.8) / 0.1 = 12 iterations. -/
theorem claim_C7 (measure : Measure) (label : String) (frameW : ℤ) :
    fetchIterationCount measure label frameW ≤ 12 := by
  have hs := fetchLoop_spec measure label (frameW - 25 * 2) 12 0 (by omega)
  have := hs.2.1
  unfold fetchIterationCount
  omega

/-- Claim C9: `annotate_center_point_trail` with fewer than two center
points leaves the frame heap bit-identical - no segment or marker is drawn. -/
theorem claim_C9 (heap : Heap) (i : ℕ) (pts : List (ℤ × ℤ))
    (hlen : pts.length < 2) :
    annotate_center_point_trail heap i pts = heap := by
  unfold annotate_center_point_trail
  rw [if_pos hlen]

/-- Witness for claim C9 at a concrete one-point trail. -/
theorem claim_C9_witness :
    annotate_center_point_trail [Frame.mk 4 4 []] 0 [(1, 1)] = [Frame.mk 4 4 []] :=
  claim_C9 [Frame.mk 4 4 []] 0 [(1, 1)] (by decide)

/-- Claim C10: `annotate_frame` on an empty detection list draws nothing and
returns the input heap (hence the same buffer, bit-identical). -/
theorem claim_C10 (measure : Measure) (heap : Heap) (i : ℕ) (vision_type : String) :
    annotate_frame measure heap i [] vision_type = Except.ok heap := rfl


/-- Evaluation of the two-decimal formatting at the confidence score 0.87. -/
theorem format2f_87 : format2f (87/100) = "0.87" := by
  unfold format2f
  rw [if_neg (by norm_num)]
  have h : (Int.floor (|(87/100 : ℚ)| * 100 + 1/2)) = 87 := by
    rw [abs_of_nonneg (by norm_num)]
    norm_num
  rw [h]
  rfl

/-- Claim C2, code bug: for an unrecognized vision type, `create_label`
returns the literal string "object_detection" (the `dict.get` default
value), not the formatted object_detection-template label that the
documented fallback was meant to produce. -/
theorem claim_C2_literal_fallback :
    create_label detCar "unrecognized_vision" none = Except.ok "object_detection" ∧
    create_label detCar "object_detection" none
      = Except.ok "ID: 7 | Class: car | Confidence Score: 0.87" ∧
    create_label detCar "unrecognized_vision" none
      ≠ create_label detCar "object_detection" none := by
  have h1 : create_label detCar "unrecognized_vision" none
      = Except.ok "object_detection" := rfl
  have h2 : create_label detCar "object_detection" none
      = Except.ok "ID: 7 | Class: car | Confidence Score: 0.87" := by
    simp [create_label, detCar, pyShowOptInt, pyShowOptStr, format2f_87]
    rfl
  refine ⟨h1, h2, ?_⟩
  rw [h1, h2]
  intro hcontra
  exact absurd (Except.ok.inj hcontra) (by decide)

/-- Counterexample to claim C3: a detection whose optional fields are all
missing makes `create_label` raise (the eager `:.2f` formatting of the
missing confidence score fails), even for a vision type whose own template
never uses the confidence score. -/
theorem claim_C3_counterexample :
    (create_label detBare "object_tracking" none).isOk = false := rfl

/-- Claim C3 as amended: `create_label` succeeds exactly when the confidence
score is present - missing speed, plate text and class name are substituted
by placeholder text ("None" / the empty string) without raising, while a
missing confidence score raises a TypeError for every vision type because
all five templates are formatted eagerly. -/
theorem claim_C3_amended :
    (∀ (d : Detection) (vt : String) (cat : Option String),
      (create_label d vt cat).isOk = d.confidence_score.isSome) ∧
    (∀ (c x1 y1 x2 y2 : ℚ) (cat : Option String),
      create_label (Detection.mk none none (some c) x1 y1 x2 y2 none none none none)
        "speed_estimation" cat = Except.ok "ID: None | Speed: Nonemph") := by
  constructor
  · intro d vt cat
    unfold create_label
    cases hc : d.confidence_score with
    | none => rfl
    | some c => rfl
  · intro c x1 y1 x2 y2 cat
    rfl

/-- Evaluation of the source thickness derivation at a square bbox of side
160: `int(160 * 0.01) * 2 = 2`. -/
theorem cornerThickness_sq160 : cornerThickness detSquare160 = 2 := by
  unfold cornerThickness
  rw [show bboxSize detSquare160 = 160 from by unfold bboxSize detSquare160 pyInt; norm_num]
  rw [show pyInt (((160 : ℤ) : ℚ) * (1/100)) = 1 from by
    unfold pyInt
    rw [if_neg (by norm_num)]
    norm_num]
  decide

/-- Counterexample to claim C4: for bbox (0,0)-(160,160) the source
truncates `size * 0.01 = 1.6` to 1 and doubles it to thickness 2, while the
claimed formula `clamp(round(size * 0.01) * 2, [1, 5])` rounds 1.6 to 2 and
gives 4. -/
theorem claim_C4_counterexample :
    cornerThickness detSquare160 = 2 ∧
    specRoundThickness (bboxSize detSquare160) = 4 ∧
    cornerThickness detSquare160 ≠ specRoundThickness (bboxSize detSquare160) := by
  have hb : bboxSize detSquare160 = 160 := by
    unfold bboxSize detSquare160 pyInt
    norm_num
  have hs : specRoundThickness (bboxSize detSquare160) = 4 := by
    rw [hb]
    unfold specRoundThickness clamp
    rw [show round (((160 : ℤ) : ℚ) * (1/100)) = 2 from by rw [round_eq]; norm_num]
    decide
  refine ⟨cornerThickness_sq160, hs, ?_⟩
  rw [cornerThickness_sq160, hs]
  decide

/-- Claim C4 as amended: the corner radius is `clamp(trunc(size * 0.5),
[5, 30])` and the stroke thickness is `clamp(trunc(size * 0.01) * 2,
[1, 5])` - the scaled size is truncated toward zero (Python `int()`), not
rounded to nearest, before the doubling that makes the pre-clamp thickness
even; both always land inside their bounds, and for bbox
(100,100)-(200,200) the radius is 30 and the thickness is 2. -/
theorem claim_C4_amended :
    (∀ d : Detection,
      cornerRadius d = clamp (pyInt ((bboxSize d : ℚ) * (1/2))) 5 30 ∧
      cornerThickness d = clamp (2 * pyInt ((bboxSize d : ℚ) * (1/100))) 1 5 ∧
      5 ≤ cornerRadius d ∧ cornerRadius d ≤ 30 ∧
      1 ≤ cornerThickness d ∧ cornerThickness d ≤ 5) ∧
    cornerRadius detScenarioA = 30 ∧ cornerThickness detScenarioA = 2 := by
  have hra : cornerRadius detScenarioA = 30 := by
    unfold cornerRadius
    rw [show bboxSize detScenarioA = 100 from by unfold bboxSize detScenarioA pyInt; norm_num]
    rw [show pyInt (((100 : ℤ) : ℚ) * (1/2)) = 50 from by
      unfold pyInt
      rw [if_neg (by norm_num)]
      norm_num]
    decide
  have hta : cornerThickness detScenarioA = 2 := by
    unfold cornerThickness
    rw [show bboxSize detScenarioA = 100 from by unfold bboxSize detScenarioA pyInt; norm_num]
    rw [show pyInt (((100 : ℤ) : ℚ) * (1/100)) = 1 from by
      unfold pyInt
      rw [if_neg (by norm_num)]
      norm_num]
    decide
  refine ⟨?_, hra, hta⟩
  intro d
  unfold cornerRadius cornerThickness clamp
  generalize pyInt ((bboxSize d : ℚ) * (1/2)) = a
  generalize pyInt ((bboxSize d : ℚ) * (1/100)) = b
  omega

/-- Counterexample to claim C8: at bbox bottom 0, center x 100 and measured
text size (50, 20), the returned label box spans x in [75, 175], so its
horizontal midpoint is 125, not the detection center x 100 - the box is not
horizontally centered on the center x, even though the top y, width and
height fields do match the claimed formulas at this input. -/
theorem claim_C8_counterexample :
    calculate_label_position 0 (100, 100) (50, 20) = LabelPosition.mk 75 45 100 70 ∧
    2 * (calculate_label_position 0 (100, 100) (50, 20)).x
        + (calculate_label_position 0 (100, 100) (50, 20)).width ≠ 2 * 100 := by
  have hpos : calculate_label_position 0 (100, 100) (50, 20)
      = LabelPosition.mk 75 45 100 70 := by
    unfold calculate_label_position
    have h1 : pyInt ((100 : ℚ) - (((50 : ℤ).fdiv 2 : ℤ) : ℚ)) = 75 := by
      unfold pyInt
      rw [show ((50 : ℤ).fdiv 2) = 25 from by decide]
      rw [if_neg (by norm_num)]
      norm_num
    have h2 : pyInt (((0 : ℤ) : ℚ) + ((20 : ℤ) : ℚ) + 25) = 45 := by
      unfold pyInt
      rw [if_neg (by norm_num)]
      norm_num
    simp only [h1, h2]
    rfl
  refine ⟨hpos, ?_⟩
  rw [hpos]
  decide

/-- Claim C8 as amended: `calculate_label_position` returns top-left x
`trunc(center_x - text_width // 2)`, top y `bbox_bottom + text_height +
label_padding`, width `text_width + 2 * label_padding` and height
`text_height + 2 * label_padding`; consequently the text span of width
`text_width` is centered on the center x, but the padded box midpoint sits
exactly `label_padding = 25` to the right of the center x (stated for an
integral center x and an even text width, where no truncation occurs). -/
theorem claim_C8_amended :
    (∀ (bot : ℤ) (cx cy : ℚ) (tw th : ℤ),
      (calculate_label_position bot (cx, cy) (tw, th)).x
          = pyInt (cx - ((tw.fdiv 2 : ℤ) : ℚ)) ∧
      (calculate_label_position bot (cx, cy) (tw, th)).y = bot + th + 25 ∧
      (calculate_label_position bot (cx, cy) (tw, th)).width = tw + 2 * 25 ∧
      (calculate_label_position bot (cx, cy) (tw, th)).height = th + 2 * 25) ∧
    (∀ (b cxi k t : ℤ) (cy : ℚ),
      2 * (calculate_label_position b ((cxi : ℚ), cy) (2 * k, t)).x
          + (calculate_label_position b ((cxi : ℚ), cy) (2 * k, t)).width
        = 2 * cxi + 2 * 25) := by
  constructor
  · intro bot cx cy tw th
    refine ⟨rfl, ?_, rfl, rfl⟩
    show pyInt ((bot : ℚ) + (th : ℚ) + 25) = bot + th + 25
    have hcast : ((bot : ℚ) + (th : ℚ) + 25) = ((bot + th + 25 : ℤ) : ℚ) := by
      push_cast
      ring
    rw [hcast, pyInt_intCast]
  · intro b cxi k t cy
    have hfd : (2 * k).fdiv 2 = k := Int.mul_fdiv_cancel_left k (by norm_num)
    show 2 * pyInt ((cxi : ℚ) - (((2 * k).fdiv 2 : ℤ) : ℚ)) + (2 * k + 2 * 25)
        = 2 * cxi + 2 * 25
    rw [hfd]
    have hcast : ((cxi : ℚ) - (k : ℚ)) = ((cxi - k : ℤ) : ℚ) := by
      push_cast
      ring
    rw [hcast, pyInt_intCast]
    ring


/-- A zero crop width makes the overlay-height ratio raise
ZeroDivisionError right after the corner arcs. -/
theorem captureOps_div0 (measure : Measure) (h w : ℤ) (d : Detection)
    (cat : Option String) (hd : paddedX2 w d - paddedX1 d = 0) :
    captureOps measure h w d cat
      = (bboxCornerOps d, Except.error "ZeroDivisionError: division by zero") := by
  unfold captureOps
  rw [if_pos hd]

/-- A failing `cv2.resize` aborts the run right after the corner arcs. -/
theorem captureOps_resize_error (measure : Measure) (h w : ℤ) (d : Detection)
    (cat : Option String) (hd : paddedX2 w d - paddedX1 d ≠ 0)
    (hr : ¬ resizeOK h w d) :
    captureOps measure h w d cat
      = (bboxCornerOps d, Except.error "cv2.error: resize on an empty crop or target size") := by
  unfold captureOps
  rw [if_neg hd, if_pos hr]

/-- A guarded paste whose shapes do not broadcast raises ValueError right
after the corner arcs: no overlay, no bars, no text. -/
theorem captureOps_broadcast_error (measure : Measure) (h w : ℤ) (d : Detection)
    (cat : Option String) (hd : paddedX2 w d - paddedX1 d ≠ 0)
    (hr : resizeOK h w d) (hg : overlayGuard h w d) (hp : ¬ pasteOK h w d) :
    captureOps measure h w d cat
      = (bboxCornerOps d, Except.error "ValueError: could not broadcast input array") := by
  unfold captureOps
  rw [if_neg hd, if_neg (not_not_intro hr), if_pos ⟨hg, hp⟩]

/-- When no crop/resize/paste step raises and the label build succeeds,
`capture_traffic_violation` draws the pre-label operations followed by the
bottom bar and its text. -/
theorem captureOps_of_ok (measure : Measure) (h w : ℤ) (d : Detection)
    (cat : Option String) (s : String)
    (hd : paddedX2 w d - paddedX1 d ≠ 0) (hr : resizeOK h w d)
    (hp : ¬ (overlayGuard h w d ∧ ¬ pasteOK h w d))
    (hs : create_label d "traffic_violation" cat = Except.ok s) :
    captureOps measure h w d cat
      = (capturePreOps measure h w d
          ++ [bottomBarFill measure h w s, bottomBarText measure h w s],
         Except.ok ()) := by
  unfold captureOps
  rw [if_neg hd, if_neg (not_not_intro hr), if_neg hp, hs]

/-- Overlay detection distributes over trace concatenation. -/
theorem hasOverlayOp_append (l1 l2 : List DrawOp) :
    hasOverlayOp (l1 ++ l2) = (hasOverlayOp l1 || hasOverlayOp l2) := by
  simp [hasOverlayOp]

/-- Bar-fill counting distributes over trace concatenation. -/
theorem fillCount_append (l1 l2 : List DrawOp) :
    fillCount (l1 ++ l2) = fillCount l1 + fillCount l2 := by
  simp [fillCount]

/-- Text-draw counting distributes over trace concatenation. -/
theorem putTextCount_append (l1 l2 : List DrawOp) :
    putTextCount (l1 ++ l2) = putTextCount l1 + putTextCount l2 := by
  simp [putTextCount]

/-- The corner arcs contain no overlay paste. -/
theorem hasOverlayOp_corners (d : Detection) : hasOverlayOp (bboxCornerOps d) = false := by
  simp [hasOverlayOp, bboxCornerOps]

/-- The corner arcs contain no bar fill. -/
theorem fillCount_corners (d : Detection) : fillCount (bboxCornerOps d) = 0 := by
  simp [fillCount, bboxCornerOps]

/-- The corner arcs contain no text draw. -/
theorem putTextCount_corners (d : Detection) : putTextCount (bboxCornerOps d) = 0 := by
  simp [putTextCount, bboxCornerOps]

/-- The guarded paste trace contains no bar fill. -/
theorem fillCount_paste (h w : ℤ) (d : Detection) : fillCount (pasteOpsIf h w d) = 0 := by
  unfold pasteOpsIf
  split <;> simp [fillCount]

/-- The guarded paste trace contains no text draw. -/
theorem putTextCount_paste (h w : ℤ) (d : Detection) :
    putTextCount (pasteOpsIf h w d) = 0 := by
  unfold pasteOpsIf
  split <;> simp [putTextCount]

/-- With the source bounds check passing, the pre-label trace contains the
overlay paste. -/
theorem hasOverlayOp_pre_pos (measure : Measure) (h w : ℤ) (d : Detection)
    (hg : overlayGuard h w d) :
    hasOverlayOp (capturePreOps measure h w d) = true := by
  unfold capturePreOps
  rw [hasOverlayOp_append, hasOverlayOp_append, hasOverlayOp_corners]
  have h1 : hasOverlayOp (pasteOpsIf h w d) = true := by
    unfold pasteOpsIf
    rw [if_pos hg]
    simp [hasOverlayOp]
  rw [h1]
  simp

/-- With the source bounds check failing, the pre-label trace contains no
overlay paste. -/
theorem hasOverlayOp_pre_neg (measure : Measure) (h w : ℤ) (d : Detection)
    (hg : ¬ overlayGuard h w d) :
    hasOverlayOp (capturePreOps measure h w d) = false := by
  unfold capturePreOps
  rw [hasOverlayOp_append, hasOverlayOp_append, hasOverlayOp_corners]
  have h1 : hasOverlayOp (pasteOpsIf h w d) = false := by
    unfold pasteOpsIf
    rw [if_neg hg]
    rfl
  rw [h1]
  simp [hasOverlayOp, plateBarFill, plateBarText]

/-- The bottom bar and its text contain no overlay paste. -/
theorem hasOverlayOp_bottom (measure : Measure) (h w : ℤ) (s : String) :
    hasOverlayOp [bottomBarFill measure h w s, bottomBarText measure h w s] = false := by
  simp [hasOverlayOp, bottomBarFill, bottomBarText]

/-- Claim C5 as amended: `capture_traffic_violation` works on a private
copy, so every buffer that existed before the call - in particular the
caller's input frame - is left bit-identical in every outcome, including
the error paths; and when the run completes (the padded crop is not
degenerate, the resize succeeds, a guarded paste broadcasts, and the data
model's confidence score is present) it returns a freshly allocated
evidence buffer that did not exist before. -/
theorem claim_C5_amended (measure : Measure) (heap : Heap) (i : ℕ) (d : Detection)
    (cat : Option String) :
    (capture_traffic_violation measure heap i d cat).1.take heap.length = heap ∧
    heap.get? heap.length = none ∧
    (d.confidence_score.isSome = true →
      paddedX2 ((heap.get? i).getD emptyFrame).width d - paddedX1 d ≠ 0 →
      resizeOK ((heap.get? i).getD emptyFrame).height ((heap.get? i).getD emptyFrame).width d →
      (overlayGuard ((heap.get? i).getD emptyFrame).height ((heap.get? i).getD emptyFrame).width d →
        pasteOK ((heap.get? i).getD emptyFrame).height ((heap.get? i).getD emptyFrame).width d) →
      (capture_traffic_violation measure heap i d cat).2 = Except.ok heap.length) := by
  refine ⟨?_, ?_, ?_⟩
  · show (heap ++ [_]).take heap.length = heap
    exact List.take_left heap _
  · exact List.get?_eq_none.mpr (le_refl _)
  · intro hc hd hr hgp
    obtain ⟨s, hs⟩ := create_label_ok_of_confidence d "traffic_violation" cat hc
    show (match (captureOps measure _ _ d cat).2 with
      | Except.ok _ => Except.ok heap.length
      | Except.error e => Except.error e) = Except.ok heap.length
    rw [captureOps_of_ok measure _ _ d cat s hd hr
      (fun hcon => hcon.2 (hgp hcon.1)) hs]

/-- Evaluation of the padded crop bounds for `detCar` on a 100 x 100 frame. -/
theorem paddedX1_car : paddedX1 detCar = 0 := by
  unfold paddedX1 detCar pyInt
  norm_num

/-- The padded right edge for `detCar` stays inside the 100-wide frame. -/
theorem paddedX2_car : paddedX2 100 detCar = 64 := by
  unfold paddedX2 detCar pyInt
  norm_num

/-- The padded top edge for `detCar` clamps to 0. -/
theorem paddedY1_car : paddedY1 detCar = 0 := by
  unfold paddedY1 detCar pyInt
  norm_num

/-- The padded bottom edge for `detCar` on a 100-high frame. -/
theorem paddedY2_car : paddedY2 100 detCar = 64 := by
  unfold paddedY2 detCar pyInt
  norm_num

/-- The upscaled overlay height for `detCar` on a 100 x 100 frame:
`int(64 * (25 / 64)) = 25`. -/
theorem overlayHeight_car : overlayHeight 100 100 detCar = 25 := by
  unfold overlayHeight
  rw [paddedY2_car, paddedY1_car, paddedX2_car, paddedX1_car,
    show overlayWidth 100 = 25 from by decide]
  unfold pyInt
  rw [if_neg (by norm_num)]
  norm_num

/-- `cv2.resize` succeeds for `detCar` on a 100 x 100 frame. -/
theorem resizeOK_car : resizeOK 100 100 detCar := by
  unfold resizeOK croppedRows croppedCols
  rw [paddedY1_car, paddedY2_car, paddedX1_car, paddedX2_car, overlayHeight_car]
  refine ⟨by decide, by decide, by decide, by decide⟩

/-- The overlay paste broadcasts for `detCar` on a 100 x 100 frame: the
target slice is exactly 25 x 25. -/
theorem pasteOK_car : pasteOK 100 100 detCar := by
  unfold pasteOK pasteTargetRows pasteTargetCols
  rw [overlayHeight_car]
  decide

/-- Witness for claim C5 at a concrete heap, frame and detection on which
every capture step succeeds. -/
theorem claim_C5_witness :
    (capture_traffic_violation constMeasure [Frame.mk 100 100 []] 0 detCar none).1.take 1
        = [Frame.mk 100 100 []] ∧
    [Frame.mk 100 100 []].get? 1 = none ∧
    (capture_traffic_violation constMeasure [Frame.mk 100 100 []] 0 detCar none).2
        = Except.ok 1 := by
  have T := claim_C5_amended constMeasure [Frame.mk 100 100 []] 0 detCar none
  have hd : paddedX2 100 detCar - paddedX1 detCar ≠ 0 := by
    rw [paddedX2_car, paddedX1_car]
    decide
  exact ⟨T.1, T.2.1, T.2.2 rfl hd resizeOK_car (fun _ => pasteOK_car)⟩

/-- Evaluation of the padded crop bounds for `detNarrow2` on a 200 x 80
frame. -/
theorem paddedX1_n2 : paddedX1 detNarrow2 = 0 := by
  unfold paddedX1 detNarrow2 pyInt
  norm_num

/-- The padded right edge for `detNarrow2` clamps to the frame width 80. -/
theorem paddedX2_n2 : paddedX2 80 detNarrow2 = 80 := by
  unfold paddedX2 detNarrow2 pyInt
  norm_num

/-- The padded top edge for `detNarrow2` clamps to 0. -/
theorem paddedY1_n2 : paddedY1 detNarrow2 = 0 := by
  unfold paddedY1 detNarrow2 pyInt
  norm_num

/-- The padded bottom edge for `detNarrow2` on a 200-high frame. -/
theorem paddedY2_n2 : paddedY2 200 detNarrow2 = 84 := by
  unfold paddedY2 detNarrow2 pyInt
  norm_num

/-- The upscaled overlay height for `detNarrow2` on a 200 x 80 frame:
`int(84 * (20 / 80)) = 21`. -/
theorem overlayHeight_n2 : overlayHeight 200 80 detNarrow2 = 21 := by
  unfold overlayHeight
  rw [paddedY2_n2, paddedY1_n2, paddedX2_n2, paddedX1_n2,
    show overlayWidth 80 = 20 from by decide]
  unfold pyInt
  rw [if_neg (by norm_num)]
  norm_num

/-- Counterexample to claim C5: on a 200 x 80 frame with bbox (10,10)-(20,20)
the overlay placement is `overlay_x = 80 - 20 - 64 = -4`; the source bounds
check passes, but the numpy target slice `[-4 : 16]` on the width-80 axis is
empty, so the paste raises ValueError and `capture_traffic_violation` raises
instead of returning a composed evidence frame. -/
theorem claim_C5_counterexample :
    (capture_traffic_violation constMeasure [Frame.mk 200 80 []] 0 detNarrow2 (some "t")).2
      = Except.error "ValueError: could not broadcast input array" := by
  have hd : paddedX2 80 detNarrow2 - paddedX1 detNarrow2 ≠ 0 := by
    rw [paddedX2_n2, paddedX1_n2]
    decide
  have hr : resizeOK 200 80 detNarrow2 := by
    unfold resizeOK croppedRows croppedCols
    rw [paddedY1_n2, paddedY2_n2, paddedX1_n2, paddedX2_n2, overlayHeight_n2]
    refine ⟨by decide, by decide, by decide, by decide⟩
  have hg : overlayGuard 200 80 detNarrow2 := by
    unfold overlayGuard
    rw [overlayHeight_n2]
    exact ⟨by decide, by decide⟩
  have hnp : ¬ pasteOK 200 80 detNarrow2 := by
    unfold pasteOK pasteTargetRows pasteTargetCols
    rw [overlayHeight_n2]
    decide
  show (match (captureOps constMeasure 200 80 detNarrow2 (some "t")).2 with
    | Except.ok _ => Except.ok 1
    | Except.error e => Except.error e)
      = Except.error "ValueError: could not broadcast input array"
  rw [captureOps_broadcast_error constMeasure 200 80 detNarrow2 (some "t") hd hr hg hnp]

/-- Claim C1 as amended: the width-side bounds check
`overlay_x + overlay_width <= w` can never fail because that sum always
equals `w - 64`, so the overlay is never silently skipped for exceeding the
frame width; the overlay op appears in the evidence trace exactly when the
whole run reaches the paste (no zero-width crop, resize succeeds) with the
bounds check passing and a broadcastable target slice; when the bounds
check fails (or the paste is skipped-or-fits) the plate bar, the bottom
metadata bar and both text draws are all present (two bar fills, two text
draws); but when the bounds check passes and the target slice does not
match (negative overlay_x on narrow frames), the paste raises ValueError
and neither overlay nor any bar nor any text is drawn. -/
theorem claim_C1_amended (measure : Measure) (heap : Heap) (i : ℕ) (d : Detection)
    (cat : Option String) (h w : ℤ) (hc : d.confidence_score.isSome = true) :
    (capture_traffic_violation measure heap i d cat).1
      = heap ++ [Frame.mk ((heap.get? i).getD emptyFrame).height
          ((heap.get? i).getD emptyFrame).width
          (((heap.get? i).getD emptyFrame).ops
            ++ (captureOps measure ((heap.get? i).getD emptyFrame).height
                ((heap.get? i).getD emptyFrame).width d cat).1)] ∧
    overlayX w + overlayWidth w = w - 64 ∧
    (hasOverlayOp (captureOps measure h w d cat).1 = true
      ↔ paddedX2 w d - paddedX1 d ≠ 0 ∧ resizeOK h w d ∧
          overlayGuard h w d ∧ pasteOK h w d) ∧
    (paddedX2 w d - paddedX1 d ≠ 0 → resizeOK h w d →
      (overlayGuard h w d → pasteOK h w d) →
      fillCount (captureOps measure h w d cat).1 = 2 ∧
      putTextCount (captureOps measure h w d cat).1 = 2) ∧
    (paddedX2 w d - paddedX1 d ≠ 0 → resizeOK h w d →
      overlayGuard h w d → ¬ pasteOK h w d →
      (captureOps measure h w d cat).2
          = Except.error "ValueError: could not broadcast input array" ∧
      fillCount (captureOps measure h w d cat).1 = 0 ∧
      putTextCount (captureOps measure h w d cat).1 = 0) := by
  obtain ⟨s, hs⟩ := create_label_ok_of_confidence d "traffic_violation" cat hc
  have hox : overlayX w + overlayWidth w = w - 64 := by
    unfold overlayX
    ring
  refine ⟨rfl, hox, ?_, ?_, ?_⟩
  · by_cases hd : paddedX2 w d - paddedX1 d = 0
    · rw [captureOps_div0 measure h w d cat hd]
      show hasOverlayOp (bboxCornerOps d) = true ↔ _
      rw [hasOverlayOp_corners]
      simp [hd]
    · by_cases hr : resizeOK h w d
      · by_cases hg : overlayGuard h w d
        · by_cases hp : pasteOK h w d
          · rw [captureOps_of_ok measure h w d cat s hd hr (fun hcon => hcon.2 hp) hs]
            show hasOverlayOp (capturePreOps measure h w d
              ++ [bottomBarFill measure h w s, bottomBarText measure h w s]) = true ↔ _
            rw [hasOverlayOp_append, hasOverlayOp_pre_pos measure h w d hg]
            simp [hd, hr, hg, hp]
          · rw [captureOps_broadcast_error measure h w d cat hd hr hg hp]
            show hasOverlayOp (bboxCornerOps d) = true ↔ _
            rw [hasOverlayOp_corners]
            simp [hp]
        · rw [captureOps_of_ok measure h w d cat s hd hr (fun hcon => absurd hcon.1 hg) hs]
          show hasOverlayOp (capturePreOps measure h w d
            ++ [bottomBarFill measure h w s, bottomBarText measure h w s]) = true ↔ _
          rw [hasOverlayOp_append, hasOverlayOp_pre_neg measure h w d hg,
            hasOverlayOp_bottom]
          simp [hg]
      · rw [captureOps_resize_error measure h w d cat hd hr]
        show hasOverlayOp (bboxCornerOps d) = true ↔ _
        rw [hasOverlayOp_corners]
        simp [hr]
  · intro hd hr hgp
    rw [captureOps_of_ok measure h w d cat s hd hr (fun hcon => hcon.2 (hgp hcon.1)) hs]
    constructor
    · show fillCount (capturePreOps measure h w d
        ++ [bottomBarFill measure h w s, bottomBarText measure h w s]) = 2
      unfold capturePreOps
      rw [fillCount_append, fillCount_append, fillCount_append, fillCount_corners,
        fillCount_paste]
      simp [fillCount, plateBarFill, plateBarText, bottomBarFill, bottomBarText]
    · show putTextCount (capturePreOps measure h w d
        ++ [bottomBarFill measure h w s, bottomBarText measure h w s]) = 2
      unfold capturePreOps
      rw [putTextCount_append, putTextCount_append, putTextCount_append,
        putTextCount_corners, putTextCount_paste]
      simp [putTextCount, plateBarFill, plateBarText, bottomBarFill, bottomBarText]
  · intro hd hr hg hp
    rw [captureOps_broadcast_error measure h w d cat hd hr hg hp]
    exact ⟨rfl, fillCount_corners d, putTextCount_corners d⟩

/-- Witness for claim C1 at a concrete heap and detection. -/
theorem claim_C1_witness :
    (capture_traffic_violation constMeasure [Frame.mk 300 84 []] 0 detNarrow (some "t")).1
      = [Frame.mk 300 84 []]
        ++ [Frame.mk 300 84 (captureOps constMeasure 300 84 detNarrow (some "t")).1] ∧
    overlayX 84 + overlayWidth 84 = 84 - 64 ∧
    (hasOverlayOp (captureOps constMeasure 300 84 detNarrow (some "t")).1 = true
      ↔ paddedX2 84 detNarrow - paddedX1 detNarrow ≠ 0 ∧ resizeOK 300 84 detNarrow ∧
          overlayGuard 300 84 detNarrow ∧ pasteOK 300 84 detNarrow) ∧
    (paddedX2 84 detNarrow - paddedX1 detNarrow ≠ 0 → resizeOK 300 84 detNarrow →
      (overlayGuard 300 84 detNarrow → pasteOK 300 84 detNarrow) →
      fillCount (captureOps constMeasure 300 84 detNarrow (some "t")).1 = 2 ∧
      putTextCount (captureOps constMeasure 300 84 detNarrow (some "t")).1 = 2) ∧
    (paddedX2 84 detNarrow - paddedX1 detNarrow ≠ 0 → resizeOK 300 84 detNarrow →
      overlayGuard 300 84 detNarrow → ¬ pasteOK 300 84 detNarrow →
      (captureOps constMeasure 300 84 detNarrow (some "t")).2
          = Except.error "ValueError: could not broadcast input array" ∧
      fillCount (captureOps constMeasure 300 84 detNarrow (some "t")).1 = 0 ∧
      putTextCount (captureOps constMeasure 300 84 detNarrow (some "t")).1 = 0) :=
  claim_C1_amended constMeasure [Frame.mk 300 84 []] 0 detNarrow (some "t") 300 84 rfl

/-- Evaluation of the padded crop bounds for `detNarrow` on a 300 x 84
frame. -/
theorem paddedY2_narrow : paddedY2 300 detNarrow = 104 := by
  unfold paddedY2 detNarrow pyInt
  norm_num

/-- The low-side vertical clamp hits 0 for `detNarrow`. -/
theorem paddedY1_narrow : paddedY1 detNarrow = 0 := by
  unfold paddedY1 detNarrow pyInt
  norm_num

/-- The high-side horizontal clamp hits the frame width 84 for `detNarrow`. -/
theorem paddedX2_narrow : paddedX2 84 detNarrow = 84 := by
  unfold paddedX2 detNarrow pyInt
  norm_num

/-- The low-side horizontal clamp hits 0 for `detNarrow`. -/
theorem paddedX1_narrow : paddedX1 detNarrow = 0 := by
  unfold paddedX1 detNarrow pyInt
  norm_num

/-- The upscaled overlay height for `detNarrow` on a 300 x 84 frame:
`int(104 * (21 / 84)) = 26`. -/
theorem overlayHeight_narrow : overlayHeight 300 84 detNarrow = 26 := by
  unfold overlayHeight
  rw [paddedY2_narrow, paddedY1_narrow, paddedX2_narrow, paddedX1_narrow,
    show overlayWidth 84 = 21 from by decide]
  unfold pyInt
  rw [if_neg (by norm_num)]
  norm_num

/-- Counterexample to claim C1: on an 84-pixel-wide, 300-pixel-high frame
with bbox (30,30)-(40,40) the computed overlay placement is
`overlay_x = 84 - 21 - 64 = -1`, so the overlay rectangle does not fit
within the frame bounds, yet the source bounds check passes (it compares
`w - 64` against `w`); the overlay is not silently skipped with the bars
still drawn - the numpy slice assignment raises ValueError, and neither
the plate bar, nor the bottom metadata bar, nor any text is drawn. -/
theorem claim_C1_counterexample :
    overlayX 84 = -1 ∧
    overlayGuard 300 84 detNarrow ∧
    (captureOps constMeasure 300 84 detNarrow (some "t")).2
      = Except.error "ValueError: could not broadcast input array" ∧
    fillCount (captureOps constMeasure 300 84 detNarrow (some "t")).1 = 0 ∧
    putTextCount (captureOps constMeasure 300 84 detNarrow (some "t")).1 = 0 := by
  have hd : paddedX2 84 detNarrow - paddedX1 detNarrow ≠ 0 := by
    rw [paddedX2_narrow, paddedX1_narrow]
    decide
  have hr : resizeOK 300 84 detNarrow := by
    unfold resizeOK croppedRows croppedCols
    rw [paddedY1_narrow, paddedY2_narrow, paddedX1_narrow, paddedX2_narrow,
      overlayHeight_narrow]
    refine ⟨by decide, by decide, by decide, by decide⟩
  have hg : overlayGuard 300 84 detNarrow := by
    unfold overlayGuard
    rw [overlayHeight_narrow]
    exact ⟨by decide, by decide⟩
  have hnp : ¬ pasteOK 300 84 detNarrow := by
    unfold pasteOK pasteTargetRows pasteTargetCols
    rw [overlayHeight_narrow]
    decide
  rw [captureOps_broadcast_error constMeasure 300 84 detNarrow (some "t") hd hr hg hnp]
  exact ⟨by decide, hg, rfl, fillCount_corners detNarrow, putTextCount_corners detNarrow⟩
